import Mathlib

/-!
Shallow embedding of the MuseWave repository for specification checking.

Embedded source files:

* `shared/schema.ts` — the entity record types (`User`, `Track`, `Like`,
  `Play`, `Follow`, `UserStats`, `TrackStats`, `SearchIndex`).
* `server/storage.ts` — the JSON-file storage engine (`JsonDatabase`): the
  collection files become fields of a `Db` record and every method becomes a
  state-passing function.  `new Date().toISOString()` timestamps are modelled
  as epoch-millisecond naturals supplied by the caller (`now`), and
  `randomUUID()` values are supplied as explicit `id` arguments.  ISO-8601
  timestamp strings compare lexicographically exactly as epoch milliseconds
  compare numerically, so string timestamps are modelled as `Nat`.
* `client/src/lib/caseTransform.ts` — camelCase/snake_case key translation
  over arbitrary JSON values.
* `client/src/lib/queryClient.ts` — `assertOk` error-message extraction.

JavaScript `number` fields are modelled as `Int` (counters, sizes) or `ℚ`
(durations and derived averages); none of the verified claims depends on
floating-point rounding.
-/

namespace MuseWave

/-! ### caseTransform.ts -/

/-- The character class `[A-Z]` of the regex in `toSnakeCase`. -/
def isAsciiUpper (c : Char) : Bool := 'A' ≤ c && c ≤ 'Z'

/-- The character class `[a-z]` of the regex in `toCamelCase`. -/
def isAsciiLower (c : Char) : Bool := 'a' ≤ c && c ≤ 'z'

/-- `letter.toLowerCase()` applied to a character matched by `[A-Z]`. -/
def asciiToLower (c : Char) : Char := Char.ofNat (c.toNat + 32)

/-- `letter.toUpperCase()` applied to a character matched by `[a-z]`. -/
def asciiToUpper (c : Char) : Char := Char.ofNat (c.toNat - 32)

/-- Character-level body of `toSnakeCase`: the global replacement
`str.replace(/[A-Z]/g, letter => "_" + letter.toLowerCase())`. -/
def snakeChars (l : List Char) : List Char :=
  l.flatMap fun c => if isAsciiUpper c then ['_', asciiToLower c] else [c]

/-- `toSnakeCase` from `caseTransform.ts`. -/
def toSnakeCase (s : String) : String := String.mk (snakeChars s.data)

/-- Character-level body of `toCamelCase`: the global replacement
`str.replace(/_([a-z])/g, (_, letter) => letter.toUpperCase())`, scanning
left to right and skipping past each match. -/
def camelChars : List Char → List Char
  | [] => []
  | [c] => [c]
  | c1 :: c2 :: rest =>
    if c1 = '_' ∧ isAsciiLower c2 = true then asciiToUpper c2 :: camelChars rest
    else c1 :: camelChars (c2 :: rest)

/-- `toCamelCase` from `caseTransform.ts`. -/
def toCamelCase (s : String) : String := String.mk (camelChars s.data)

/-- JSON-like values handled by `toSnakeCaseObject` / `toCamelCaseObject`:
`null`/`undefined`, primitives, arrays, and plain objects (ordered own
enumerable string keys). -/
inductive JsValue where
  | null
  | bool (b : Bool)
  | num (q : ℚ)
  | str (s : String)
  | arr (items : List JsValue)
  | obj (fields : List (String × JsValue))

/-- One JavaScript property assignment `converted[k] = v`: an existing key
keeps its position and gets the new value, a new key is appended. -/
def setKey : List (String × JsValue) → String → JsValue → List (String × JsValue)
  | [], k, v => [(k, v)]
  | (k', v') :: rest, k, v =>
    if k' = k then (k', v) :: rest else (k', v') :: setKey rest k v

/-- The `for (const key in obj) converted[newKey] = newValue` loop of the two
object converters, replayed over an already-transformed key/value list. -/
def buildObj (l : List (String × JsValue)) : List (String × JsValue) :=
  l.foldl (fun acc kv => setKey acc kv.1 kv.2) []

mutual

/-- `toSnakeCaseObject` from `caseTransform.ts`: recursively converts object
keys from camelCase to snake_case, mapping over arrays and leaving
primitives untouched. -/
def toSnakeCaseObject : JsValue → JsValue
  | .null => .null
  | .bool b => .bool b
  | .num q => .num q
  | .str s => .str s
  | .arr items => .arr (toSnakeCaseList items)
  | .obj fields => .obj (buildObj (toSnakeCaseFields fields))

/-- `obj.map(item => toSnakeCaseObject(item))`. -/
def toSnakeCaseList : List JsValue → List JsValue
  | [] => []
  | v :: rest => toSnakeCaseObject v :: toSnakeCaseList rest

/-- Per-entry transformation done inside the `for`-in loop of
`toSnakeCaseObject`. -/
def toSnakeCaseFields : List (String × JsValue) → List (String × JsValue)
  | [] => []
  | (k, v) :: rest => (toSnakeCase k, toSnakeCaseObject v) :: toSnakeCaseFields rest

end

mutual

/-- `toCamelCaseObject` from `caseTransform.ts`. -/
def toCamelCaseObject : JsValue → JsValue
  | .null => .null
  | .bool b => .bool b
  | .num q => .num q
  | .str s => .str s
  | .arr items => .arr (toCamelCaseList items)
  | .obj fields => .obj (buildObj (toCamelCaseFields fields))

/-- `obj.map(item => toCamelCaseObject(item))`. -/
def toCamelCaseList : List JsValue → List JsValue
  | [] => []
  | v :: rest => toCamelCaseObject v :: toCamelCaseList rest

/-- Per-entry transformation done inside the `for`-in loop of
`toCamelCaseObject`. -/
def toCamelCaseFields : List (String × JsValue) → List (String × JsValue)
  | [] => []
  | (k, v) :: rest => (toCamelCase k, toCamelCaseObject v) :: toCamelCaseFields rest

end

/-- The key alphabet of the round-trip claim: letters and digits only. -/
def isLetterOrDigit (c : Char) : Bool :=
  isAsciiUpper c || isAsciiLower c || ('0' ≤ c && c ≤ '9')

/-- A key made only of letters and digits. -/
def goodKey (s : String) : Bool := s.data.all isLetterOrDigit

mutual

/-- Well-formedness for the round-trip claim: every object has distinct keys
(as any JavaScript object does) made only of letters and digits. -/
def goodVal : JsValue → Bool
  | .null => true
  | .bool _ => true
  | .num _ => true
  | .str _ => true
  | .arr items => goodArr items
  | .obj fields => decide ((fields.map Prod.fst).Nodup) && goodFields fields

/-- `goodVal` over the items of an array. -/
def goodArr : List JsValue → Bool
  | [] => true
  | v :: rest => goodVal v && goodArr rest

/-- `goodVal` over the entries of an object. -/
def goodFields : List (String × JsValue) → Bool
  | [] => true
  | (k, v) :: rest => goodKey k && goodVal v && goodFields rest

end

/-! ### queryClient.ts — `assertOk` -/

/-- The response-body fields that `assertOk` (and the spec) mention. -/
structure ErrorBody where
  message : Option String := none
  detail : Option String := none
  error : Option String := none
  non_field_errors : Option (List String) := none
deriving DecidableEq

/-- A received HTTP response as `assertOk` sees it: status code, status text,
and the JSON body when `response.json()` parses (`none` models a parse
failure, which the code turns into `{}`). -/
structure HttpResponse where
  status : Nat
  statusText : String
  jsonBody : Option ErrorBody := none
deriving DecidableEq

/-- `Response.ok` of the fetch API: status in the inclusive range 200-299. -/
def HttpResponse.ok (r : HttpResponse) : Bool := 200 ≤ r.status && r.status ≤ 299

/-- The fallback text used by `assertOk`. -/
def statusLine (r : HttpResponse) : String := toString r.status ++ ": " ++ r.statusText

/-- `assertOk` from `queryClient.ts`, as the message of the thrown `Error`
(`none` = no throw, the response was ok). -/
def assertOk (r : HttpResponse) : Option String :=
  if r.ok then none
  else if 500 ≤ r.status then
    some ("Server error " ++ toString r.status ++ ": " ++ r.statusText)
  else
    let errorData := r.jsonBody.getD {}
    some ((((errorData.message).orElse fun _ => errorData.detail).orElse
      fun _ => errorData.error).getD (statusLine r))

/-- Modelled from the spec: the claimed message for a non-2xx response is
"the first defined value among the response body fields message, detail,
error, and the first entry of non_field_errors, falling back to the HTTP
status line when none of these fields is present". -/
def claimedErrorMessage (r : HttpResponse) : String :=
  let b := r.jsonBody.getD {}
  ([b.message, b.detail, b.error, b.non_field_errors.bind List.head?].reduceOption).headD
    (statusLine r)

/-- Modelled from the spec, amended to what the code does: a response with
status ≥ 500 is reported as "Server error status: statusText" regardless of
its body; otherwise the message is the first defined value among `message`,
`detail` and `error` (the `non_field_errors` field is never consulted by
`assertOk`), falling back to the HTTP status line. -/
def amendedErrorMessage (r : HttpResponse) : String :=
  if 500 ≤ r.status then "Server error " ++ toString r.status ++ ": " ++ r.statusText
  else
    let b := r.jsonBody.getD {}
    ([b.message, b.detail, b.error].reduceOption).headD (statusLine r)

/-! ### shared/schema.ts — entity records

Structure-field defaults mirror the zod `.default(...)` clauses where those
exist; the remaining defaults are only a notational convenience for building
concrete sample values and play no role in the embedded operations. -/

/-- `userSchema.socialLinks`. -/
structure SocialLinks where
  twitter : Option String := none
  instagram : Option String := none
  spotify : Option String := none
  soundcloud : Option String := none
deriving DecidableEq

/-- `userSchema` / `User`. -/
structure User where
  id : String := ""
  username : String := ""
  email : String := ""
  password : String := ""
  displayName : Option String := none
  bio : Option String := none
  avatarUrl : Option String := none
  headerUrl : Option String := none
  location : Option String := none
  website : Option String := none
  socialLinks : Option SocialLinks := none
  verified : Bool := false
  createdAt : Nat := 0
  updatedAt : Nat := 0
deriving DecidableEq

/-- `trackSchema` / `Track`. -/
structure Track where
  id : String := ""
  userId : String := ""
  albumId : Option String := none
  title : String := ""
  artist : String := ""
  artistSlug : String := ""
  description : Option String := none
  genre : String := ""
  mood : Option String := none
  tags : List String := []
  audioUrl : String := ""
  audioFileSize : Int := 0
  audioDuration : ℚ := 0
  audioFormat : String := ""
  coverUrl : Option String := none
  coverGradient : Option String := none
  waveformData : Option String := none
  bpm : Option ℚ := none
  key : Option String := none
  plays : Int := 0
  likes : Int := 0
  downloads : Int := 0
  shares : Int := 0
  published : Bool := false
  publishedAt : Option Nat := none
  createdAt : Nat := 0
  updatedAt : Nat := 0
deriving DecidableEq

/-- `likeSchema` / `Like`. -/
structure Like where
  id : String := ""
  userId : String := ""
  trackId : String := ""
  createdAt : Nat := 0
deriving DecidableEq

/-- `downloadSchema` / `Download`. -/
structure Download where
  id : String := ""
  userId : Option String := none
  trackId : String := ""
  ipAddress : Option String := none
  userAgent : Option String := none
  createdAt : Nat := 0
deriving DecidableEq

/-- `playSchema` / `Play` (`userId` is optional: plays can be anonymous). -/
structure Play where
  id : String := ""
  userId : Option String := none
  trackId : String := ""
  duration : ℚ := 0
  completed : Bool := false
  ipAddress : Option String := none
  userAgent : Option String := none
  createdAt : Nat := 0
deriving DecidableEq

/-- `followSchema` / `Follow`. -/
structure Follow where
  id : String := ""
  followerId : String := ""
  followingId : String := ""
  createdAt : Nat := 0
deriving DecidableEq

/-- `userStatsSchema` / `UserStats`. -/
structure UserStats where
  userId : String := ""
  totalTracks : Nat := 0
  totalPlays : Int := 0
  totalLikes : Int := 0
  totalDownloads : Int := 0
  totalFollowers : Nat := 0
  totalFollowing : Nat := 0
  monthlyListeners : Nat := 0
  updatedAt : Nat := 0
deriving DecidableEq

/-- `trackStatsSchema` / `TrackStats`; `dailyPlays` is the day → count record,
with days as `createdAt / 86400000` (the UTC date component of the ISO
timestamp). -/
structure TrackStats where
  trackId : String := ""
  dailyPlays : List (Nat × Nat) := []
  totalUniqueListeners : Nat := 0
  avgListenDuration : ℚ := 0
  completionRate : ℚ := 0
  updatedAt : Nat := 0
deriving DecidableEq

/-- Entries of `searchIndexSchema.tracks`. -/
structure SearchTrackEntry where
  id : String := ""
  title : String := ""
  artist : String := ""
  artistSlug : String := ""
  genre : String := ""
  mood : String := ""
  tags : List String := []
  plays : Int := 0
  likes : Int := 0
  publishedAt : Option Nat := none
deriving DecidableEq

/-- Entries of `searchIndexSchema.users`. -/
structure SearchUserEntry where
  id : String := ""
  username : String := ""
  displayName : Option String := none
  bio : Option String := none
  verified : Bool := false
deriving DecidableEq

/-- `searchIndexSchema` / `SearchIndex`. -/
structure SearchIndex where
  tracks : List SearchTrackEntry := []
  users : List SearchUserEntry := []
deriving DecidableEq

/-- `createTrackSchema` / `CreateTrack`: a track payload without `id`, the
counters, `publishedAt`, `createdAt` and `updatedAt`. -/
structure CreateTrack where
  userId : String := ""
  albumId : Option String := none
  title : String := ""
  artist : String := ""
  artistSlug : String := ""
  description : Option String := none
  genre : String := ""
  mood : Option String := none
  tags : List String := []
  audioUrl : String := ""
  audioFileSize : Int := 0
  audioDuration : ℚ := 0
  audioFormat : String := ""
  coverUrl : Option String := none
  coverGradient : Option String := none
  waveformData : Option String := none
  bpm : Option ℚ := none
  key : Option String := none
  published : Bool := false
deriving DecidableEq

/-- `updateTrackSchema` / `UpdateTrack`: every `trackSchema` field except
`id`, `userId` and `createdAt`, all optional (`none` = absent from the JSON
payload). -/
structure UpdateTrack where
  albumId : Option String := none
  title : Option String := none
  artist : Option String := none
  artistSlug : Option String := none
  description : Option String := none
  genre : Option String := none
  mood : Option String := none
  tags : Option (List String) := none
  audioUrl : Option String := none
  audioFileSize : Option Int := none
  audioDuration : Option ℚ := none
  audioFormat : Option String := none
  coverUrl : Option String := none
  coverGradient : Option String := none
  waveformData : Option String := none
  bpm : Option ℚ := none
  key : Option String := none
  plays : Option Int := none
  likes : Option Int := none
  downloads : Option Int := none
  shares : Option Int := none
  published : Option Bool := none
  publishedAt : Option Nat := none
  updatedAt : Option Nat := none
deriving DecidableEq

/-- TypeScript `Partial<User>` as accepted by `updateUser` — every `User`
field optional, including `id` and `createdAt`. -/
structure PartialUser where
  id : Option String := none
  username : Option String := none
  email : Option String := none
  password : Option String := none
  displayName : Option String := none
  bio : Option String := none
  avatarUrl : Option String := none
  headerUrl : Option String := none
  location : Option String := none
  website : Option String := none
  socialLinks : Option SocialLinks := none
  verified : Option Bool := none
  createdAt : Option Nat := none
  updatedAt : Option Nat := none
deriving DecidableEq

/-- `Omit<Play, "id" | "createdAt">`, the payload of `createPlay`. -/
structure CreatePlay where
  userId : Option String := none
  trackId : String := ""
  duration : ℚ := 0
  completed : Bool := false
  ipAddress : Option String := none
  userAgent : Option String := none
deriving DecidableEq

/-! ### server/storage.ts — the JSON database

The `DB_FILES` collections that the verified claims exercise; the
`playlists` and `comments` files are untouched by every modelled operation
and are left out of the record. -/

/-- The persisted collections of `JsonDatabase`. -/
structure Db where
  users : List User := []
  tracks : List Track := []
  likes : List Like := []
  downloads : List Download := []
  plays : List Play := []
  follows : List Follow := []
  userStats : List UserStats := []
  trackStats : List TrackStats := []
  searchIndex : SearchIndex := {}
deriving DecidableEq

/-- The freshly initialised database (every collection file empty). -/
def emptyDb : Db := {}

/-- `getTracksByUser`. -/
def getTracksByUser (db : Db) (userId : String) : List Track :=
  db.tracks.filter fun t => t.userId == userId

/-- `getFollowers`. -/
def getFollowers (db : Db) (userId : String) : List Follow :=
  db.follows.filter fun f => f.followingId == userId

/-- `getFollowing`. -/
def getFollowing (db : Db) (userId : String) : List Follow :=
  db.follows.filter fun f => f.followerId == userId

/-- `getPlaysByTrack`. -/
def getPlaysByTrack (db : Db) (trackId : String) : List Play :=
  db.plays.filter fun p => p.trackId == trackId

/-- `hasUserLikedTrack`. -/
def hasUserLikedTrack (db : Db) (userId trackId : String) : Bool :=
  db.likes.any fun l => l.userId == userId && l.trackId == trackId

/-- `rebuildSearchIndex`: recompute the whole index from the published
tracks and all users. -/
def rebuildSearchIndex (db : Db) : Db :=
  { db with searchIndex :=
    { tracks := (db.tracks.filter fun t => t.published).map fun t =>
        { id := t.id, title := t.title, artist := t.artist,
          artistSlug := t.artistSlug, genre := t.genre, mood := t.mood.getD "",
          tags := t.tags, plays := t.plays, likes := t.likes,
          publishedAt := t.publishedAt },
      users := db.users.map fun u =>
        { id := u.id, username := u.username, displayName := u.displayName,
          bio := u.bio, verified := u.verified } } }

/-- `new Date(); d.setDate(d.getDate() - 30)` of `updateUserStats`, as
epoch-millisecond arithmetic (30 UTC days). -/
def thirtyDaysAgo (now : Nat) : Nat := now - 30 * 86400000

/-- `updateUserStats`: recompute a user's aggregate stats from scratch and
store them (replacing the existing entry or appending a new one). -/
def updateUserStats (db : Db) (userId : String) (now : Nat) : UserStats × Db :=
  let allStats := db.userStats
  let tracks := getTracksByUser db userId
  let followers := getFollowers db userId
  let following := getFollowing db userId
  let totalPlays := tracks.foldl (fun sum t => sum + t.plays) 0
  let totalLikes := tracks.foldl (fun sum t => sum + t.likes) 0
  let totalDownloads := tracks.foldl (fun sum t => sum + t.downloads) 0
  let cutoff := thirtyDaysAgo now
  let recentPlays := db.plays.filter fun p =>
    (tracks.any fun t => t.id == p.trackId) && decide (cutoff ≤ p.createdAt)
  let uniqueListeners :=
    ((recentPlays.filterMap Play.userId).filter fun s => !s.isEmpty).dedup
  let stats : UserStats :=
    { userId := userId, totalTracks := tracks.length, totalPlays := totalPlays,
      totalLikes := totalLikes, totalDownloads := totalDownloads,
      totalFollowers := followers.length, totalFollowing := following.length,
      monthlyListeners := uniqueListeners.length, updatedAt := now }
  let i := allStats.findIdx fun s => s.userId == userId
  let newStats := if i < allStats.length then allStats.set i stats
    else allStats ++ [stats]
  (stats, { db with userStats := newStats })

/-- `getUserStats`: return the cached entry when one exists, otherwise
compute (and cache) fresh stats. -/
def getUserStats (db : Db) (userId : String) (now : Nat) : UserStats × Db :=
  match db.userStats.find? (fun s => s.userId == userId) with
  | some existing => (existing, db)
  | none => updateUserStats db userId now

/-- `dailyPlays[date] = (dailyPlays[date] || 0) + 1` on the day → count
record. -/
def bumpDaily : List (Nat × Nat) → Nat → List (Nat × Nat)
  | [], d => [(d, 1)]
  | (d', c) :: rest, d =>
    if d' = d then (d', c + 1) :: rest else (d', c) :: bumpDaily rest d

/-- `updateTrackStats`: recompute a track's aggregate stats from its plays
and store them. -/
def updateTrackStats (db : Db) (trackId : String) (now : Nat) : TrackStats × Db :=
  let allStats := db.trackStats
  let plays := getPlaysByTrack db trackId
  let dailyPlays := plays.foldl (fun m p => bumpDaily m (p.createdAt / 86400000)) []
  let uniqueListeners :=
    ((plays.filterMap Play.userId).filter fun s => !s.isEmpty).dedup
  let totalDuration := plays.foldl (fun sum p => sum + p.duration) 0
  let avgListenDuration : ℚ :=
    if plays.length > 0 then totalDuration / plays.length else 0
  let completedPlays := (plays.filter fun p => p.completed).length
  let completionRate : ℚ :=
    if plays.length > 0 then ((completedPlays : ℚ) / plays.length) * 100 else 0
  let stats : TrackStats :=
    { trackId := trackId, dailyPlays := dailyPlays,
      totalUniqueListeners := uniqueListeners.length,
      avgListenDuration := avgListenDuration, completionRate := completionRate,
      updatedAt := now }
  let i := allStats.findIdx fun s => s.trackId == trackId
  let newStats := if i < allStats.length then allStats.set i stats
    else allStats ++ [stats]
  (stats, { db with trackStats := newStats })

/-- Common body of the four counter mutators (`incrementTrackPlays`,
`incrementTrackLikes`, `decrementTrackLikes`, `incrementTrackDownloads`):
`findIndex` the track by id, mutate it in place, write the collection back;
a missing id (`index === -1`) is a no-op. -/
def modifyTrack (db : Db) (trackId : String) (f : Track → Track) : Db :=
  let i := db.tracks.findIdx fun t => t.id == trackId
  if h : i < db.tracks.length then
    { db with tracks := db.tracks.set i (f db.tracks[i]) }
  else db

/-- `incrementTrackPlays`. -/
def incrementTrackPlays (db : Db) (trackId : String) (now : Nat) : Db :=
  modifyTrack db trackId fun t => { t with plays := t.plays + 1, updatedAt := now }

/-- `incrementTrackLikes`. -/
def incrementTrackLikes (db : Db) (trackId : String) (now : Nat) : Db :=
  modifyTrack db trackId fun t => { t with likes := t.likes + 1, updatedAt := now }

/-- `decrementTrackLikes`: `likes = Math.max(0, likes - 1)`. -/
def decrementTrackLikes (db : Db) (trackId : String) (now : Nat) : Db :=
  modifyTrack db trackId fun t =>
    { t with likes := max 0 (t.likes - 1), updatedAt := now }

/-- `incrementTrackDownloads`. -/
def incrementTrackDownloads (db : Db) (trackId : String) (now : Nat) : Db :=
  modifyTrack db trackId fun t =>
    { t with downloads := t.downloads + 1, updatedAt := now }

/-- `createLike`: return the existing record for an already-liked pair,
otherwise append a new `Like` and increment the track's counter. -/
def createLike (db : Db) (userId trackId id : String) (now : Nat) : Like × Db :=
  match db.likes.find? (fun l => l.userId == userId && l.trackId == trackId) with
  | some existing => (existing, db)
  | none =>
    let like : Like := { id := id, userId := userId, trackId := trackId, createdAt := now }
    let db1 := { db with likes := db.likes ++ [like] }
    (like, incrementTrackLikes db1 trackId now)

/-- `deleteLike`: drop every like of the pair; report `false` (and change
nothing) when none existed, otherwise decrement the track's counter. -/
def deleteLike (db : Db) (userId trackId : String) (now : Nat) : Bool × Db :=
  let filtered := db.likes.filter fun l => !(l.userId == userId && l.trackId == trackId)
  if filtered.length = db.likes.length then (false, db)
  else
    let db1 := { db with likes := filtered }
    (true, decrementTrackLikes db1 trackId now)

/-- The `Play` record built by `createPlay` from its payload, a fresh id and
the current time. -/
def newPlayOf (play : CreatePlay) (id : String) (now : Nat) : Play :=
  { id := id, userId := play.userId, trackId := play.trackId,
    duration := play.duration, completed := play.completed,
    ipAddress := play.ipAddress, userAgent := play.userAgent, createdAt := now }

/-- `createPlay`: append the play event, then increment the track's play
counter and recompute the track's stats (user stats are not touched). -/
def createPlay (db : Db) (play : CreatePlay) (id : String) (now : Nat) : Play × Db :=
  let newPlay := newPlayOf play id now
  let db1 := { db with plays := db.plays ++ [newPlay] }
  let db2 := incrementTrackPlays db1 play.trackId now
  let db3 := (updateTrackStats db2 play.trackId now).2
  (newPlay, db3)

/-- The `Track` record built by `createTrack`: counters zero, `publishedAt`
stamped only when created published. -/
def newTrackOf (ct : CreateTrack) (id : String) (now : Nat) : Track :=
  { id := id, userId := ct.userId, albumId := ct.albumId, title := ct.title,
    artist := ct.artist, artistSlug := ct.artistSlug,
    description := ct.description, genre := ct.genre, mood := ct.mood,
    tags := ct.tags, audioUrl := ct.audioUrl,
    audioFileSize := ct.audioFileSize, audioDuration := ct.audioDuration,
    audioFormat := ct.audioFormat, coverUrl := ct.coverUrl,
    coverGradient := ct.coverGradient, waveformData := ct.waveformData,
    bpm := ct.bpm, key := ct.key, plays := 0, likes := 0, downloads := 0,
    shares := 0, published := ct.published,
    publishedAt := if ct.published then some now else none,
    createdAt := now, updatedAt := now }

/-- `createTrack`: build the track, append it, refresh the owner's stats and
rebuild the search index. -/
def createTrack (db : Db) (ct : CreateTrack) (id : String) (now : Nat) : Track × Db :=
  let track := newTrackOf ct id now
  let db1 := { db with tracks := db.tracks ++ [track] }
  let db2 := (updateUserStats db1 track.userId now).2
  (track, rebuildSearchIndex db2)

/-- The merge `{...tracks[index], ...updates, id, publishedAt: ...,
updatedAt: ...}` of `updateTrack`: spread fields override when present in the
payload, then `id`, `publishedAt` and `updatedAt` are re-asserted explicitly
(so a `publishedAt` or `updatedAt` in the payload is ignored). -/
def mergeTrack (t : Track) (u : UpdateTrack) (now : Nat) : Track :=
  let wasPublished := t.published
  let nowPublished := u.published.getD wasPublished
  { id := t.id, userId := t.userId,
    albumId := match u.albumId with | some v => some v | none => t.albumId,
    title := u.title.getD t.title, artist := u.artist.getD t.artist,
    artistSlug := u.artistSlug.getD t.artistSlug,
    description := match u.description with | some v => some v | none => t.description,
    genre := u.genre.getD t.genre,
    mood := match u.mood with | some v => some v | none => t.mood,
    tags := u.tags.getD t.tags, audioUrl := u.audioUrl.getD t.audioUrl,
    audioFileSize := u.audioFileSize.getD t.audioFileSize,
    audioDuration := u.audioDuration.getD t.audioDuration,
    audioFormat := u.audioFormat.getD t.audioFormat,
    coverUrl := match u.coverUrl with | some v => some v | none => t.coverUrl,
    coverGradient := match u.coverGradient with | some v => some v | none => t.coverGradient,
    waveformData := match u.waveformData with | some v => some v | none => t.waveformData,
    bpm := match u.bpm with | some v => some v | none => t.bpm,
    key := match u.key with | some v => some v | none => t.key,
    plays := u.plays.getD t.plays, likes := u.likes.getD t.likes,
    downloads := u.downloads.getD t.downloads, shares := u.shares.getD t.shares,
    published := nowPublished,
    publishedAt := if nowPublished && !wasPublished then some now else t.publishedAt,
    createdAt := t.createdAt, updatedAt := now }

/-- `updateTrack`: merge the payload into the track found by id (stamping
`publishedAt` on an unpublished → published transition), write back at the
same index, and rebuild the search index; `none` when the id is unknown. -/
def updateTrack (db : Db) (id : String) (updates : UpdateTrack) (now : Nat) :
    Option Track × Db :=
  let i := db.tracks.findIdx fun t => t.id == id
  if h : i < db.tracks.length then
    let merged := mergeTrack db.tracks[i] updates now
    let db1 := { db with tracks := db.tracks.set i merged }
    (some merged, rebuildSearchIndex db1)
  else (none, db)

/-- The merge `{...users[index], ...updates, id, updatedAt: ...}` of
`updateUser`: the explicit `id` re-assertion overrides any `id` carried by
the payload, and the explicit `updatedAt` overrides a payload `updatedAt`;
every other payload field (including `createdAt`) overrides when present. -/
def mergeUser (old : User) (u : PartialUser) (id : String) (now : Nat) : User :=
  { id := id, username := u.username.getD old.username,
    email := u.email.getD old.email, password := u.password.getD old.password,
    displayName := match u.displayName with | some v => some v | none => old.displayName,
    bio := match u.bio with | some v => some v | none => old.bio,
    avatarUrl := match u.avatarUrl with | some v => some v | none => old.avatarUrl,
    headerUrl := match u.headerUrl with | some v => some v | none => old.headerUrl,
    location := match u.location with | some v => some v | none => old.location,
    website := match u.website with | some v => some v | none => old.website,
    socialLinks := match u.socialLinks with | some v => some v | none => old.socialLinks,
    verified := u.verified.getD old.verified,
    createdAt := u.createdAt.getD old.createdAt, updatedAt := now }

/-- `updateUser`: merge the payload into the user found by id and write back
at the same index; `none` when the id is unknown. -/
def updateUser (db : Db) (id : String) (updates : PartialUser) (now : Nat) :
    Option User × Db :=
  let i := db.users.findIdx fun u => u.id == id
  if h : i < db.users.length then
    let merged := mergeUser db.users[i] updates id now
    (some merged, { db with users := db.users.set i merged })
  else (none, db)

/-- `TrackFilters.sortBy`. -/
inductive SortBy where
  | createdAt
  | plays
  | likes
  | downloads
deriving DecidableEq

/-- `TrackFilters.sortOrder`. -/
inductive SortOrder where
  | asc
  | desc
deriving DecidableEq

/-- `TrackFilters` of `storage.ts`. -/
structure TrackFilters where
  userId : Option String := none
  genre : Option String := none
  mood : Option String := none
  tags : Option (List String) := none
  published : Option Bool := none
  limit : Option Nat := none
  offset : Option Nat := none
  sortBy : Option SortBy := none
  sortOrder : Option SortOrder := none
deriving DecidableEq

/-- The value `a[sortBy]` used by the `listTracks` comparator.  The three
counters are numbers; `createdAt` is an ISO string whose `localeCompare`
order coincides with the numeric order of the modelled epoch timestamp. -/
def sortVal (t : Track) : SortBy → Int
  | .createdAt => (t.createdAt : Int)
  | .plays => t.plays
  | .likes => t.likes
  | .downloads => t.downloads

/-- The `listTracks` comparator as a "may precede" relation: `a` may come
before `b` exactly when the JS comparator returns ≤ 0 on `(a, b)`
(`aVal - bVal` for `asc`, `bVal - aVal` for `desc`). -/
def trackLe (sortBy : SortBy) (sortOrder : SortOrder) (a b : Track) : Bool :=
  match sortOrder with
  | .asc => sortVal a sortBy ≤ sortVal b sortBy
  | .desc => sortVal b sortBy ≤ sortVal a sortBy

/-- `listTracks`: filter (JS-truthiness guards: an empty `userId`, `genre` or
`mood` string and an empty `tags` array disable their filters, and a
`limit` of `0` falls back to the default 50 via `filters.limit || 50`),
then stable-sort, then paginate with `slice(offset, offset + limit)`. -/
def listTracks (db : Db) (filters : TrackFilters) : List Track :=
  let t0 := db.tracks
  let t1 : List Track := match filters.userId with
    | some u => if u.isEmpty then t0 else t0.filter fun t => t.userId == u
    | none => t0
  let t2 : List Track := match filters.genre with
    | some g => if g.isEmpty then t1
      else t1.filter fun t => t.genre.toLower == g.toLower
    | none => t1
  let t3 : List Track := match filters.mood with
    | some m => if m.isEmpty then t2
      else t2.filter fun t => match t.mood with
        | some tm => tm.toLower == m.toLower
        | none => false
    | none => t2
  let t4 : List Track := match filters.tags with
    | some tags => if tags.isEmpty then t3
      else t3.filter fun t => tags.any fun tag => t.tags.contains tag
    | none => t3
  let t5 : List Track := match filters.published with
    | some p => t4.filter fun t => t.published == p
    | none => t4
  let sortBy := filters.sortBy.getD .createdAt
  let sortOrder := filters.sortOrder.getD .desc
  let sorted := t5.mergeSort (trackLe sortBy sortOrder)
  let limit := match filters.limit with
    | some l => if l = 0 then 50 else l
    | none => 50
  let offset := filters.offset.getD 0
  (sorted.drop offset).take limit

/-- The `likes` counter of the track stored under `trackId` (`none` when no
such track exists). -/
def trackLikes (db : Db) (trackId : String) : Option Int :=
  (db.tracks.find? fun t => t.id == trackId).map Track.likes

/-- The like/unlike operations of the C9 claim. -/
inductive LikeOp where
  | like (userId trackId id : String) (now : Nat)
  | unlike (userId trackId : String) (now : Nat)

/-- Run one like/unlike operation. -/
def applyLikeOp (db : Db) : LikeOp → Db
  | .like userId trackId id now => (createLike db userId trackId id now).2
  | .unlike userId trackId now => (deleteLike db userId trackId now).2

/-- Every stored track has a nonnegative `likes` counter. -/
def likesNonneg (db : Db) : Prop := ∀ t ∈ db.tracks, 0 ≤ t.likes

/-- `getTrack`. -/
def getTrack (db : Db) (id : String) : Option Track :=
  db.tracks.find? fun t => t.id == id

/-- The `trackBelongsToUser` test of `updateUserStats`: some track of the
user has the given id. -/
def ownsTrack (db : Db) (userId trackId : String) : Bool :=
  (getTracksByUser db userId).any fun t => t.id == trackId

/-! ### Concrete sample data for counterexamples and witnesses -/

/-- A published track owned by user `artist`. -/
def sampleTrack : Track :=
  { id := "t1", userId := "artist", title := "Song", artist := "Artist",
    artistSlug := "artist", genre := "pop", audioUrl := "u", audioFormat := "mp3",
    published := true, publishedAt := some 0 }

/-- A cached stats entry for `artist`, as `createUser`/`createTrack` would
have produced before any play was recorded. -/
def sampleCachedStats : UserStats := { userId := "artist", totalTracks := 1 }

/-- Database holding `artist`'s track together with a cached (stale-able)
stats entry. -/
def sampleCachedDb : Db := { tracks := [sampleTrack], userStats := [sampleCachedStats] }

/-- Database holding `artist`'s track and no cached stats entry. -/
def sampleFreshDb : Db := { tracks := [sampleTrack] }

/-- A play payload for `sampleTrack` by the given listener. -/
def samplePlay (u : String) : CreatePlay :=
  { userId := some u, trackId := "t1", duration := 10, completed := true }

/-- `sampleCachedDb` after recording three plays of `artist`'s track by three
distinct listeners at time 1000. -/
def sampleAfterPlays : Db :=
  let d1 := (createPlay sampleCachedDb (samplePlay "u1") "p1" 1000).2
  let d2 := (createPlay d1 (samplePlay "u2") "p2" 1000).2
  (createPlay d2 (samplePlay "u3") "p3" 1000).2

/-- A track that user `u` has already liked (counter already counts it). -/
def likedTrack : Track := { id := "t1", userId := "artist", likes := 1 }

/-- Database where the pair (`u`, `t1`) is already liked. -/
def preLikedDb : Db :=
  { tracks := [likedTrack],
    likes := [{ id := "l0", userId := "u", trackId := "t1", createdAt := 0 }] }

/-- `preLikedDb` after two further `createLike` calls for the same pair. -/
def preLikedAfterDouble : Db :=
  (createLike ((createLike preLikedDb "u" "t1" "l1" 10).2) "u" "t1" "l2" 20).2

/-- `preLikedDb` after `createLike` then `deleteLike` for the same pair. -/
def preLikedAfterLikeUnlike : Db :=
  (deleteLike ((createLike preLikedDb "u" "t1" "l1" 10).2) "u" "t1" 20).2

/-- An unpublished-at-creation track payload for the `publishedAt` scenario. -/
def sampleCreateTrack : CreateTrack :=
  { userId := "artist", title := "Song", artist := "Artist", artistSlug := "artist",
    genre := "pop", audioUrl := "u", audioFormat := "mp3", published := true }

/-- Create published at time 100, unpublish at 200, republish at 300. -/
def publishedAt100 : Db := (createTrack emptyDb sampleCreateTrack "t1" 100).2

/-- See `publishedAt100`. -/
def unpublishedAt200 : Db :=
  (updateTrack publishedAt100 "t1" { published := some false } 200).2

/-- See `publishedAt100`. -/
def republishedAt300 : Option Track × Db :=
  updateTrack unpublishedAt200 "t1" { published := some true } 300

/-- A 400 response whose body carries only `non_field_errors`. -/
def sampleNonFieldResp : HttpResponse :=
  { status := 400, statusText := "Bad Request",
    jsonBody := some { non_field_errors := some ["No active account"] } }

/-- A fresh track with some accumulated likes for the like/unlike witnesses. -/
def freshTrack : Track := { id := "t1", userId := "artist", likes := 5 }

/-- Database holding `freshTrack` and no like records. -/
def freshTrackDb : Db := { tracks := [freshTrack] }

/-- A published track for the listing witnesses. -/
def trackA : Track := { id := "t1", userId := "a", plays := 2, published := true }

/-- A published track for the listing witnesses. -/
def trackB : Track := { id := "t2", userId := "b", plays := 7, published := true }

/-- An unpublished track for the listing witnesses. -/
def trackC : Track := { id := "t3", userId := "c", plays := 4, published := false }

/-- Two published tracks and an unpublished one, with different play counts. -/
def sampleTracksDb : Db := { tracks := [trackA, trackB, trackC] }

/-- One published and one unpublished track. -/
def singlePubDb : Db := { tracks := [trackB, trackC] }

/-- A nested camelCase object for the round-trip witness. -/
def sampleJs : JsValue :=
  .obj [("userId", .str "u1"),
        ("trackMeta", .obj [("playCount", .num 3), ("artistSlug", .null)]),
        ("tags", .arr [.str "lofi", .bool true])]

/-- A stored user for the update witnesses. -/
def sampleUser : User :=
  { id := "u1", username := "alice", email := "a@x", password := "pw" }

/-- Database holding only `sampleUser`. -/
def sampleUserDb : Db := { users := [sampleUser] }

/-- An update payload that tries to smuggle in a different `id`. -/
def evilUpdate : PartialUser := { id := some "evil", username := some "mallory" }

/-- A track-update payload that tries to set `publishedAt` directly. -/
def evilTrackUpdate : UpdateTrack := { title := some "x", publishedAt := some 999 }

/-- `sampleCreateTrack` with `published := false` for the end-to-end
publish scenario. -/
def unpubCreateTrack : CreateTrack := { sampleCreateTrack with published := false }

/-! ### Helper lemmas -/

/-- `find?` expressed through `findIdx`, matching the `findIndex`-then-index
pattern used all over `storage.ts`. -/
theorem find?_eq_dite {α : Type} (l : List α) (p : α → Bool) :
    l.find? p = if h : l.findIdx p < l.length then some (l.get ⟨l.findIdx p, h⟩)
      else none := by
  induction l with
  | nil => rfl
  | cons a rest ih =>
    rw [List.find?_cons, List.findIdx_cons]
    cases hpa : p a with
    | true =>
      simp [hpa]
    | false =>
      simp only [hpa, cond_false]
      by_cases h : rest.findIdx p < rest.length
      · have h' : rest.findIdx p + 1 < (a :: rest).length := by
          simpa using Nat.succ_lt_succ h
        rw [ih, dif_pos h, dif_pos h']
        rfl
      · have h' : ¬(rest.findIdx p + 1 < (a :: rest).length) := by
          simpa using h
        rw [ih, dif_neg h, dif_neg h']

/-- Updating the element found by `findIdx` updates the result of `find?`
accordingly, provided the mutation does not change the predicate. -/
theorem find?_set_findIdx {α : Type} (l : List α) (p : α → Bool) (f : α → α)
    (hp : ∀ a, p (f a) = p a) :
    (if h : l.findIdx p < l.length then l.set (l.findIdx p) (f (l.get ⟨l.findIdx p, h⟩))
      else l).find? p = (l.find? p).map f := by
  induction l with
  | nil => rfl
  | cons a rest ih =>
    rw [List.findIdx_cons]
    cases hpa : p a with
    | true =>
      rw [dif_pos (by simp [hpa])]
      simp [hpa, List.find?_cons, hp]
    | false =>
      simp only [hpa, cond_false]
      by_cases h : rest.findIdx p < rest.length
      · have h' : rest.findIdx p + 1 < (a :: rest).length := by
          simpa using Nat.succ_lt_succ h
        rw [dif_pos h']
        simp only [List.set_cons_succ, List.get_cons_succ, List.find?_cons, hpa]
        rw [← ih, dif_pos h]
      · have h' : ¬(rest.findIdx p + 1 < (a :: rest).length) := by
          simpa using h
        rw [dif_neg h']
        simp only [List.find?_cons, hpa]
        rw [← ih, dif_neg h]

/-- `modifyTrack` only touches the `tracks` collection. -/
theorem modifyTrack_likes (db : Db) (tid : String) (f : Track → Track) :
    (modifyTrack db tid f).likes = db.likes := by
  unfold modifyTrack
  dsimp only
  split <;> rfl

/-- `modifyTrack` only touches the `tracks` collection. -/
theorem modifyTrack_plays (db : Db) (tid : String) (f : Track → Track) :
    (modifyTrack db tid f).plays = db.plays := by
  unfold modifyTrack
  dsimp only
  split <;> rfl

/-- `modifyTrack` only touches the `tracks` collection. -/
theorem modifyTrack_userStats (db : Db) (tid : String) (f : Track → Track) :
    (modifyTrack db tid f).userStats = db.userStats := by
  unfold modifyTrack
  dsimp only
  split <;> rfl

/-- Looking up the mutated track after `modifyTrack`, for id-preserving
mutations. -/
theorem modifyTrack_find? (db : Db) (tid : String) (f : Track → Track)
    (hid : ∀ t, (f t).id = t.id) :
    (modifyTrack db tid f).tracks.find? (fun t => t.id == tid)
      = (db.tracks.find? (fun t => t.id == tid)).map f := by
  unfold modifyTrack
  dsimp only
  rw [apply_dite (fun d : Db => d.tracks)]
  dsimp only
  exact find?_set_findIdx db.tracks (fun t => t.id == tid) f (fun a => by simp [hid])

/-- `l.set i l[i] = l`. -/
theorem set_getElem_self {α : Type} (l : List α) (i : Nat) (h : i < l.length) :
    l.set i l[i] = l := by
  apply List.ext_getElem?
  intro j
  by_cases hij : i = j
  · subst hij
    rw [List.getElem?_set_self h, List.getElem?_eq_getElem h]
  · rw [List.getElem?_set_ne hij]

/-- `modifyTrack` preserves any per-track projection that the mutation
preserves. -/
theorem modifyTrack_map {α : Type} (db : Db) (tid : String) (f : Track → Track)
    (g : Track → α) (hg : ∀ t, g (f t) = g t) :
    (modifyTrack db tid f).tracks.map g = db.tracks.map g := by
  unfold modifyTrack
  dsimp only
  rw [apply_dite (fun d : Db => d.tracks)]
  dsimp only
  split
  case isTrue h =>
    rw [List.map_set, hg]
    have hlen : db.tracks.findIdx (fun t => t.id == tid) < (db.tracks.map g).length := by
      simpa using h
    have hmap : g db.tracks[db.tracks.findIdx fun t => t.id == tid]
        = (db.tracks.map g).get ⟨db.tracks.findIdx fun t => t.id == tid, hlen⟩ := by
      simp
    rw [hmap]
    exact set_getElem_self _ _ hlen
  case isFalse h => rfl

/-- `updateUserStats` only rewrites the stats collection. -/
theorem updateUserStats_tracks (db : Db) (u : String) (now : Nat) :
    (updateUserStats db u now).2.tracks = db.tracks := rfl

/-- `updateUserStats` only rewrites the stats collection. -/
theorem updateUserStats_plays (db : Db) (u : String) (now : Nat) :
    (updateUserStats db u now).2.plays = db.plays := rfl

/-- `updateTrackStats` only rewrites the track-stats collection. -/
theorem updateTrackStats_tracks (db : Db) (tid : String) (now : Nat) :
    (updateTrackStats db tid now).2.tracks = db.tracks := rfl

/-- `updateTrackStats` only rewrites the track-stats collection. -/
theorem updateTrackStats_plays (db : Db) (tid : String) (now : Nat) :
    (updateTrackStats db tid now).2.plays = db.plays := rfl

/-- `updateTrackStats` only rewrites the track-stats collection. -/
theorem updateTrackStats_userStats (db : Db) (tid : String) (now : Nat) :
    (updateTrackStats db tid now).2.userStats = db.userStats := rfl

/-- `rebuildSearchIndex` only rewrites the search index. -/
theorem rebuildSearchIndex_tracks (db : Db) :
    (rebuildSearchIndex db).tracks = db.tracks := rfl

/-- `createPlay` appends exactly the new play event to the plays log. -/
theorem createPlay_plays (db : Db) (pl : CreatePlay) (id : String) (now : Nat) :
    (createPlay db pl id now).2.plays = db.plays ++ [newPlayOf pl id now] := by
  unfold createPlay
  dsimp only
  rw [updateTrackStats_plays]
  unfold incrementTrackPlays
  rw [modifyTrack_plays]

/-- `createPlay` never touches the cached user stats. -/
theorem createPlay_userStats (db : Db) (pl : CreatePlay) (id : String) (now : Nat) :
    (createPlay db pl id now).2.userStats = db.userStats := by
  unfold createPlay
  dsimp only
  rw [updateTrackStats_userStats]
  unfold incrementTrackPlays
  rw [modifyTrack_userStats]

/-- `createPlay` preserves each track's identity and owner. -/
theorem createPlay_tracks_proj (db : Db) (pl : CreatePlay) (id : String) (now : Nat) :
    (createPlay db pl id now).2.tracks.map (fun t => (t.id, t.userId))
      = db.tracks.map (fun t => (t.id, t.userId)) := by
  unfold createPlay
  dsimp only
  rw [updateTrackStats_tracks]
  unfold incrementTrackPlays
  exact modifyTrack_map _ _ _ _ (fun t => rfl)

/-- Half of `ownsTrack_congr`: ownership transfers along an equality of the
id/owner projections of two track collections. -/
theorem ownsTrack_congr_aux (A B : List Track) (u tid : String)
    (h : A.map (fun t => (t.id, t.userId)) = B.map (fun t => (t.id, t.userId)))
    (hx : (A.filter (fun t => t.userId == u)).any (fun t => t.id == tid) = true) :
    (B.filter (fun t => t.userId == u)).any (fun t => t.id == tid) = true := by
  simp only [List.any_eq_true, List.mem_filter] at hx ⊢
  rcases hx with ⟨t, ⟨ht, hu⟩, hid⟩
  have hmem : (t.id, t.userId) ∈ B.map (fun t => (t.id, t.userId)) := by
    rw [← h]
    exact List.mem_map_of_mem _ ht
  rcases List.mem_map.mp hmem with ⟨t', ht', heq⟩
  rw [Prod.ext_iff] at heq
  obtain ⟨h1, h2⟩ := heq
  simp only at h1 h2
  exact ⟨t', ⟨ht', by rw [h2]; exact hu⟩, by rw [h1]; exact hid⟩

/-- `ownsTrack` only depends on the id/owner projection of the tracks. -/
theorem ownsTrack_congr (db' db : Db) (u tid : String)
    (h : db'.tracks.map (fun t => (t.id, t.userId))
      = db.tracks.map (fun t => (t.id, t.userId))) :
    ownsTrack db' u tid = ownsTrack db u tid := by
  unfold ownsTrack getTracksByUser
  rw [Bool.eq_iff_iff]
  exact ⟨ownsTrack_congr_aux db'.tracks db.tracks u tid h,
    ownsTrack_congr_aux db.tracks db'.tracks u tid h.symm⟩

/-- `createPlay` does not change which tracks a user owns. -/
theorem createPlay_ownsTrack (db : Db) (pl : CreatePlay) (id : String) (now : Nat)
    (u tid : String) :
    ownsTrack (createPlay db pl id now).2 u tid = ownsTrack db u tid :=
  ownsTrack_congr _ db u tid (createPlay_tracks_proj db pl id now)

/-! ### C8 — error-message extraction of the API client -/

/-- C8 counterexample: for a 400 response whose body carries only
`non_field_errors`, the claim predicts the message "No active account", but
`assertOk` throws the status-line fallback "400: Bad Request" — the
`non_field_errors` field is never consulted. -/
theorem c8_error_message_counterexample :
    claimedErrorMessage sampleNonFieldResp = "No active account" ∧
    assertOk sampleNonFieldResp = some "400: Bad Request" ∧
    "400: Bad Request" ≠ "No active account" := by
  refine ⟨rfl, rfl, by decide⟩

/-- C8 (amended): for every non-2xx response, the thrown message is: for
status ≥ 500, "Server error status: statusText" regardless of the body;
otherwise the first defined value among the body fields `message`, `detail`
and `error` (`non_field_errors` is not consulted), falling back to the HTTP
status line. -/
theorem c8_error_message (r : HttpResponse) :
    assertOk r = if r.ok then none else some (amendedErrorMessage r) := by
  unfold assertOk amendedErrorMessage
  by_cases hok : r.ok = true
  · simp [hok]
  · simp only [hok, Bool.false_eq_true, if_false]
    by_cases h5 : 500 ≤ r.status
    · simp [h5]
    · simp only [h5, if_false]
      cases hb : r.jsonBody with
      | none => rfl
      | some b =>
        cases hm : b.message <;> cases hd : b.detail <;> cases he : b.error <;>
          simp [Option.getD, Option.orElse, List.reduceOption, List.headD, hm, hd, he]

/-! ### C9 — the likes counter never goes negative -/

/-- `modifyTrack` preserves nonnegativity of the likes counters whenever the
mutation does. -/
theorem likesNonneg_modifyTrack (db : Db) (tid : String) (f : Track → Track)
    (hf : ∀ t, 0 ≤ t.likes → 0 ≤ (f t).likes) (h : likesNonneg db) :
    likesNonneg (modifyTrack db tid f) := by
  unfold modifyTrack
  dsimp only
  split
  case isTrue hlt =>
    intro t ht
    rcases List.mem_or_eq_of_mem_set ht with hmem | heq
    · exact h t hmem
    · subst heq
      exact hf _ (h _ (List.getElem_mem _))
  case isFalse hlt => exact h

/-- `createLike` preserves nonnegativity of the likes counters. -/
theorem likesNonneg_createLike (db : Db) (u tid lid : String) (now : Nat)
    (h : likesNonneg db) : likesNonneg (createLike db u tid lid now).2 := by
  unfold createLike
  cases db.likes.find? (fun l => l.userId == u && l.trackId == tid) with
  | some existing => exact h
  | none =>
    dsimp only
    unfold incrementTrackLikes
    exact likesNonneg_modifyTrack _ _ _ (fun t ht => by dsimp only; omega) h

/-- `deleteLike` preserves nonnegativity of the likes counters. -/
theorem likesNonneg_deleteLike (db : Db) (u tid : String) (now : Nat)
    (h : likesNonneg db) : likesNonneg (deleteLike db u tid now).2 := by
  unfold deleteLike
  dsimp only
  split
  · exact h
  · unfold decrementTrackLikes
    exact likesNonneg_modifyTrack _ _ _ (fun t ht => by dsimp only; exact le_max_left 0 _) h

/-- C9: the likes counter can never be driven below zero: `createTrack`
initialises it to 0, `incrementTrackLikes` adds 1, `decrementTrackLikes`
clamps at 0, and therefore any sequence of like/unlike calls — including
unliking at counter 0 — keeps every stored counter nonnegative. -/
theorem c9_likes_nonneg :
    (∀ (db : Db) (ct : CreateTrack) (id : String) (now : Nat), likesNonneg db →
      likesNonneg (createTrack db ct id now).2) ∧
    (∀ (db : Db) (tid : String) (now : Nat), likesNonneg db →
      likesNonneg (incrementTrackLikes db tid now)) ∧
    (∀ (db : Db) (tid : String) (now : Nat), likesNonneg db →
      likesNonneg (decrementTrackLikes db tid now)) ∧
    (∀ (db : Db) (ops : List LikeOp), likesNonneg db →
      likesNonneg (ops.foldl applyLikeOp db)) := by
  have hlike : ∀ (db : Db) (op : LikeOp), likesNonneg db →
      likesNonneg (applyLikeOp db op) := by
    intro db op h
    cases op with
    | like u tid lid now => exact likesNonneg_createLike db u tid lid now h
    | unlike u tid now => exact likesNonneg_deleteLike db u tid now h
  refine ⟨?_, ?_, ?_, ?_⟩
  · intro db ct id now h
    unfold createTrack
    dsimp only
    intro t ht
    rw [rebuildSearchIndex_tracks, updateUserStats_tracks] at ht
    rcases List.mem_append.mp ht with hmem | hmem
    · exact h t hmem
    · simp only [List.mem_singleton] at hmem
      subst hmem
      exact le_refl 0
  · intro db tid now h
    exact likesNonneg_modifyTrack _ _ _ (fun t ht => by dsimp only; omega) h
  · intro db tid now h
    exact likesNonneg_modifyTrack _ _ _ (fun t ht => by dsimp only; exact le_max_left 0 _) h
  · intro db ops
    induction ops generalizing db with
    | nil => exact id
    | cons op rest ih =>
      intro h
      exact ih _ (hlike db op h)

/-- C9 witness: a concrete well-formed database stays nonnegative through a
like followed by two unlikes (the second hitting counter floor) and through
a track creation. -/
theorem c9_likes_nonneg_witness :
    likesNonneg ([LikeOp.like "u" "t1" "l1" 5, LikeOp.unlike "u" "t1" 6,
      LikeOp.unlike "u" "t1" 7].foldl applyLikeOp freshTrackDb) ∧
    likesNonneg (createTrack freshTrackDb sampleCreateTrack "t9" 8).2 :=
  ⟨c9_likes_nonneg.2.2.2 freshTrackDb _ (by unfold likesNonneg; decide),
   c9_likes_nonneg.1 freshTrackDb sampleCreateTrack "t9" 8 (by unfold likesNonneg; decide)⟩

/-! ### C10 — updates never change a record's id or its neighbours -/

/-- C10: `updateUser` and `updateTrack` keep the looked-up id on the stored
record (even though the `updateUser` payload may carry a different `id`,
the explicit re-assertion wins), keep the collection length, and leave every
record at any other position untouched. -/
theorem c10_update_preserves_id :
    (∀ (db : Db) (id : String) (u : PartialUser) (now : Nat) (usr : User),
        (updateUser db id u now).1 = some usr → usr.id = id) ∧
    (∀ (db : Db) (id : String) (u : PartialUser) (now : Nat),
        (updateUser db id u now).2.users.length = db.users.length ∧
        ∀ j, j ≠ db.users.findIdx (fun x => x.id == id) →
          (updateUser db id u now).2.users[j]? = db.users[j]?) ∧
    (∀ (db : Db) (id : String) (tu : UpdateTrack) (now : Nat) (tr : Track),
        (updateTrack db id tu now).1 = some tr → tr.id = id) ∧
    (∀ (db : Db) (id : String) (tu : UpdateTrack) (now : Nat),
        (updateTrack db id tu now).2.tracks.length = db.tracks.length ∧
        ∀ j, j ≠ db.tracks.findIdx (fun x => x.id == id) →
          (updateTrack db id tu now).2.tracks[j]? = db.tracks[j]?) := by
  refine ⟨?_, ?_, ?_, ?_⟩
  · intro db id u now usr h
    unfold updateUser at h
    dsimp only at h
    split at h
    · injection h with h
      subst h
      rfl
    · exact absurd h (by simp)
  · intro db id u now
    unfold updateUser
    dsimp only
    split
    · exact ⟨List.length_set .., fun j hj => List.getElem?_set_ne (Ne.symm hj)⟩
    · exact ⟨rfl, fun j hj => rfl⟩
  · intro db id tu now tr h
    unfold updateTrack at h
    dsimp only at h
    split at h
    case isTrue hlt =>
      injection h with h
      subst h
      have hpt := @List.findIdx_getElem _ (fun t : Track => t.id == id) db.tracks hlt
      simpa [mergeTrack] using hpt
    case isFalse hlt => exact absurd h (by simp)
  · intro db id tu now
    unfold updateTrack
    dsimp only
    split
    · constructor
      · rw [rebuildSearchIndex_tracks]
        exact List.length_set ..
      · intro j hj
        rw [rebuildSearchIndex_tracks]
        exact List.getElem?_set_ne (Ne.symm hj)
    · exact ⟨rfl, fun j hj => rfl⟩

/-- C10 witness: updating `sampleUser` with a payload that smuggles
`id := "evil"` keeps the stored id `"u1"`, the collection length, and the
(out-of-range) neighbour; updating `sampleTrack` with a payload that smuggles
`publishedAt` keeps the id `"t1"`. -/
theorem c10_update_preserves_id_witness :
    (mergeUser sampleUser evilUpdate "u1" 9).id = "u1" ∧
    (updateUser sampleUserDb "u1" evilUpdate 9).2.users.length = 1 ∧
    (updateUser sampleUserDb "u1" evilUpdate 9).2.users[1]? = none ∧
    (mergeTrack sampleTrack evilTrackUpdate 9).id = "t1" ∧
    (updateTrack sampleFreshDb "t1" evilTrackUpdate 9).2.tracks.length = 1 :=
  ⟨c10_update_preserves_id.1 sampleUserDb "u1" evilUpdate 9 _ rfl,
   (c10_update_preserves_id.2.1 sampleUserDb "u1" evilUpdate 9).1,
   ((c10_update_preserves_id.2.1 sampleUserDb "u1" evilUpdate 9).2 1 (by decide)).trans
     (by decide),
   c10_update_preserves_id.2.2.1 sampleFreshDb "t1" evilTrackUpdate 9 _ rfl,
   (c10_update_preserves_id.2.2.2 sampleFreshDb "t1" evilTrackUpdate 9).1⟩

/-! ### C2 / C4 — like and unlike against the likes counter -/

/-- The likes collection of the database produced by a non-duplicate
`createLike`. -/
theorem createLike_likes_of_fresh (db : Db) (u t lid : String) (now : Nat)
    (hnone : db.likes.find? (fun l => l.userId == u && l.trackId == t) = none) :
    (createLike db u t lid now).2.likes
      = db.likes ++ [{ id := lid, userId := u, trackId := t, createdAt := now }] := by
  unfold createLike
  rw [hnone]
  dsimp only
  unfold incrementTrackLikes
  rw [modifyTrack_likes]

/-- The tracks lookup after a non-duplicate `createLike`: the liked track's
counter rose by one. -/
theorem createLike_find?_of_fresh (db : Db) (u t lid : String) (now : Nat)
    (hnone : db.likes.find? (fun l => l.userId == u && l.trackId == t) = none) :
    (createLike db u t lid now).2.tracks.find? (fun x => x.id == t)
      = (db.tracks.find? (fun x => x.id == t)).map
          (fun tr => { tr with likes := tr.likes + 1, updatedAt := now }) := by
  unfold createLike
  rw [hnone]
  dsimp only
  unfold incrementTrackLikes
  exact modifyTrack_find? _ _ _ (fun x => rfl)

/-- `createLike` on an already-liked pair returns the existing record and
changes nothing. -/
theorem createLike_of_found (db : Db) (u t lid : String) (now : Nat) (lk : Like)
    (hfound : db.likes.find? (fun l => l.userId == u && l.trackId == t) = some lk) :
    createLike db u t lid now = (lk, db) := by
  unfold createLike
  rw [hfound]

/-- C2 counterexample: in a state where the pair (u, t1) is already liked
(counter 1), calling `createLike` twice leaves exactly one Like record but
the counter unchanged at 1 — it did not increase by 1 as the claim demands
for every pair. -/
theorem c2_like_idempotent_counterexample :
    preLikedAfterDouble.likes.countP
      (fun l => l.userId == "u" && l.trackId == "t1") = 1 ∧
    trackLikes preLikedDb "t1" = some 1 ∧
    trackLikes preLikedAfterDouble "t1" = some 1 ∧
    trackLikes preLikedAfterDouble "t1" ≠ some (1 + 1) :=
  ⟨by decide, by decide, by decide, by decide⟩

/-- C2 (amended): for a pair with no existing Like and an existing track,
calling `createLike` twice in sequence is idempotent: afterwards exactly one
Like record with that pair exists and the track's likes counter has
increased by exactly 1 relative to its value before the first call, not 2. -/
theorem c2_like_idempotent (db : Db) (u t lid1 lid2 : String) (n1 n2 : Nat) (tr : Track)
    (hfresh : db.likes.countP (fun l => l.userId == u && l.trackId == t) = 0)
    (htrack : db.tracks.find? (fun x => x.id == t) = some tr) :
    ((createLike ((createLike db u t lid1 n1).2) u t lid2 n2).2.likes.countP
        (fun l => l.userId == u && l.trackId == t) = 1) ∧
    trackLikes (createLike ((createLike db u t lid1 n1).2) u t lid2 n2).2 t
      = some (tr.likes + 1) := by
  have hnone : db.likes.find? (fun l => l.userId == u && l.trackId == t) = none :=
    List.find?_eq_none.mpr (List.countP_eq_zero.mp hfresh)
  have hlikes1 := createLike_likes_of_fresh db u t lid1 n1 hnone
  have hfind2 : (createLike db u t lid1 n1).2.likes.find?
      (fun l => l.userId == u && l.trackId == t)
      = some { id := lid1, userId := u, trackId := t, createdAt := n1 } := by
    rw [hlikes1, List.find?_append, hnone]
    simp
  rw [createLike_of_found _ u t lid2 n2 _ hfind2]
  constructor
  · rw [hlikes1, List.countP_append, hfresh]
    simp
  · unfold trackLikes
    rw [createLike_find?_of_fresh db u t lid1 n1 hnone, htrack]
    rfl

/-- C4 counterexample: in a state where the pair (u, t1) is already liked
(counter 1), `createLike` is a no-op and the following `deleteLike` removes
the pre-existing like and decrements, leaving the counter at 0 instead of
restoring the pre-call value 1. -/
theorem c4_like_unlike_counterexample :
    trackLikes preLikedDb "t1" = some 1 ∧
    trackLikes preLikedAfterLikeUnlike "t1" = some 0 ∧
    trackLikes preLikedAfterLikeUnlike "t1" ≠ trackLikes preLikedDb "t1" :=
  ⟨by decide, by decide, by decide⟩

/-- C4 (amended): for a pair with no existing Like, an existing track and a
nonnegative counter (as every counter reachable through the storage API is),
`createLike` followed by `deleteLike` restores the track's likes counter to
its value before the `createLike` call. -/
theorem c4_like_unlike (db : Db) (u t lid : String) (n1 n2 : Nat) (tr : Track)
    (hfresh : db.likes.countP (fun l => l.userId == u && l.trackId == t) = 0)
    (htrack : db.tracks.find? (fun x => x.id == t) = some tr)
    (hge : 0 ≤ tr.likes) :
    trackLikes (deleteLike (createLike db u t lid n1).2 u t n2).2 t = some tr.likes := by
  have hnone : db.likes.find? (fun l => l.userId == u && l.trackId == t) = none :=
    List.find?_eq_none.mpr (List.countP_eq_zero.mp hfresh)
  have hlikes1 := createLike_likes_of_fresh db u t lid n1 hnone
  have hself : db.likes.filter (fun l => !(l.userId == u && l.trackId == t)) = db.likes :=
    List.filter_eq_self.mpr (fun x hx => by
      have h0 := List.countP_eq_zero.mp hfresh x hx
      have h1 : (x.userId == u && x.trackId == t) = false := by
        revert h0
        cases x.userId == u && x.trackId == t <;> simp
      simp [h1])
  have hfiltered : (createLike db u t lid n1).2.likes.filter
      (fun l => !(l.userId == u && l.trackId == t)) = db.likes := by
    rw [hlikes1, List.filter_append, hself]
    simp
  have hlen : ¬((createLike db u t lid n1).2.likes.filter
      (fun l => !(l.userId == u && l.trackId == t))).length
        = (createLike db u t lid n1).2.likes.length := by
    rw [hfiltered, hlikes1]
    simp
  unfold deleteLike
  dsimp only
  rw [if_neg hlen]
  dsimp only
  unfold trackLikes decrementTrackLikes
  rw [modifyTrack_find? _ t
    (fun tk => { tk with likes := max 0 (tk.likes - 1), updatedAt := n2 }) (fun x => rfl)]
  have htracks1 : ({ (createLike db u t lid n1).2 with
      likes := (createLike db u t lid n1).2.likes.filter
        (fun l => !(l.userId == u && l.trackId == t)) } : Db).tracks.find?
      (fun x => x.id == t)
      = some { tr with likes := tr.likes + 1, updatedAt := n1 } := by
    show (createLike db u t lid n1).2.tracks.find? (fun x => x.id == t) = _
    rw [createLike_find?_of_fresh db u t lid n1 hnone, htrack]
    rfl
  rw [htracks1]
  have h1 : tr.likes + 1 - 1 = tr.likes := by omega
  have h2 : max 0 tr.likes = tr.likes := max_eq_right hge
  simp [h1, h2]

/-- C2 witness: on a track with 5 likes and no like records, liking twice
yields one Like record and counter 6. -/
theorem c2_like_idempotent_witness :
    ((createLike ((createLike freshTrackDb "u" "t1" "l1" 1).2) "u" "t1" "l2" 2).2.likes.countP
        (fun l => l.userId == "u" && l.trackId == "t1") = 1) ∧
    trackLikes (createLike ((createLike freshTrackDb "u" "t1" "l1" 1).2) "u" "t1" "l2" 2).2 "t1"
      = some (freshTrack.likes + 1) :=
  c2_like_idempotent freshTrackDb "u" "t1" "l1" "l2" 1 2 freshTrack (by decide) (by decide)

/-- C4 witness: on a track with 5 likes and no like records, like followed by
unlike restores the counter to 5. -/
theorem c4_like_unlike_witness :
    trackLikes (deleteLike (createLike freshTrackDb "u" "t1" "l1" 1).2 "u" "t1" 2).2 "t1"
      = some freshTrack.likes :=
  c4_like_unlike freshTrackDb "u" "t1" "l1" 1 2 freshTrack (by decide) (by decide) (by decide)

/-! ### C5 / C6 — listTracks filtering and sorting -/

/-- C5: `listTracks` with the `published: true` filter never returns a track
whose `published` field is false. -/
theorem c5_list_published (db : Db) (filters : TrackFilters)
    (hp : filters.published = some true) :
    ∀ tr ∈ listTracks db filters, tr.published = true := by
  intro tr htr
  unfold listTracks at htr
  rw [hp] at htr
  dsimp only at htr
  have h1 := List.mem_of_mem_take htr
  have h2 := List.mem_of_mem_drop h1
  have h3 := (List.mergeSort_perm _ _).mem_iff.mp h2
  have h4 := List.of_mem_filter h3
  simpa using h4

/-- C5 witness: `trackB` is returned by the published listing of the sample
database and is indeed published. -/
theorem c5_list_published_witness : trackB.published = true :=
  c5_list_published singlePubDb { published := some true } rfl trackB
    (by simp [listTracks, singlePubDb, trackB, trackC, List.mergeSort_singleton])

/-- C6: `listTracks` with `sortBy: "plays"`, `sortOrder: "desc"` returns a
sequence whose `plays` values are non-increasing. -/
theorem c6_sorted_plays_desc (db : Db) (filters : TrackFilters)
    (hsb : filters.sortBy = some .plays) (hso : filters.sortOrder = some .desc) :
    List.Chain' (fun a b : Track => b.plays ≤ a.plays) (listTracks db filters) := by
  unfold listTracks
  rw [hsb, hso]
  dsimp only
  have hsorted : ∀ l : List Track,
      List.Pairwise (fun a b => trackLe .plays .desc a b = true)
        (l.mergeSort (trackLe .plays .desc)) := by
    intro l
    apply List.sorted_mergeSort
    · intro a b c hab hbc
      simp only [trackLe, sortVal, decide_eq_true_eq] at hab hbc ⊢
      omega
    · intro a b
      simp only [trackLe, sortVal, Bool.or_eq_true, decide_eq_true_eq]
      omega
  refine List.Pairwise.chain' (List.Pairwise.take (List.Pairwise.drop ?_))
  exact (hsorted _).imp (fun hab => by
    simpa [trackLe, sortVal] using hab)

/-- C6 witness: the sample database sorted by plays descending is
non-increasing in plays. -/
theorem c6_sorted_plays_desc_witness :
    List.Chain' (fun a b : Track => b.plays ≤ a.plays)
      (listTracks sampleTracksDb { sortBy := some .plays, sortOrder := some .desc }) :=
  c6_sorted_plays_desc sampleTracksDb _ rfl rfl

/-! ### C3 — publishedAt lifecycle -/

/-- `updateTrack` on a single-track store whose track carries the looked-up
id. -/
theorem updateTrack_singleton (db : Db) (t : Track) (id : String) (u : UpdateTrack)
    (now : Nat) (h : db.tracks = [t]) (hid : t.id = id) :
    updateTrack db id u now = (some (mergeTrack t u now),
      rebuildSearchIndex { db with tracks := [mergeTrack t u now] }) := by
  have hidx : db.tracks.findIdx (fun x => x.id == id) = 0 := by
    rw [h]
    simp [List.findIdx_cons, hid]
  unfold updateTrack
  dsimp only
  rw [hidx, h]
  rw [dif_pos (show 0 < [t].length by simp)]
  rfl

/-- C3 counterexample: a track created published at time 100 has
`publishedAt = 100`; unpublishing at 200 keeps it; but re-publishing at 300
overwrites it with 300 — `publishedAt` is reassigned at every
unpublished → published transition, not assigned exactly once. -/
theorem c3_published_at_counterexample :
    (getTrack publishedAt100 "t1").map Track.publishedAt = some (some 100) ∧
    (getTrack unpublishedAt200 "t1").map Track.publishedAt = some (some 100) ∧
    (getTrack republishedAt300.2 "t1").map Track.publishedAt = some (some 300) ∧
    some (300 : Nat) ≠ some (100 : Nat) :=
  ⟨by decide, by decide, by decide, by decide⟩

/-- C3 (amended): `publishedAt` is stamped by `createTrack` when created
published and re-stamped by every `updateTrack` that flips `published` from
false to true (so possibly more than once over the track's life); any
`updateTrack` that does not make that transition — including one that sets
`published` back to false or carries a `publishedAt` in its payload —
leaves `publishedAt` unchanged, and it is never cleared.  The end-to-end
scenario holds: a track created unpublished is absent from the published
listing, and after a `published: true` update it appears there with
`publishedAt` equal to the update time. -/
theorem c3_published_at :
    (∀ (db : Db) (id : String) (u : UpdateTrack) (now : Nat) (tr : Track),
        getTrack db id = some tr →
        ¬(u.published.getD tr.published = true ∧ tr.published = false) →
        (updateTrack db id u now).1.map Track.publishedAt = some tr.publishedAt) ∧
    (∀ (db : Db) (id : String) (u : UpdateTrack) (now : Nat) (tr : Track),
        getTrack db id = some tr →
        u.published.getD tr.published = true → tr.published = false →
        (updateTrack db id u now).1.map Track.publishedAt = some (some now)) ∧
    (∀ (ct : CreateTrack) (id : String) (t0 t1 : Nat), ct.published = false →
        listTracks (createTrack emptyDb ct id t0).2 { published := some true } = [] ∧
        ∃ tr, (updateTrack (createTrack emptyDb ct id t0).2 id
            { published := some true } t1).1 = some tr ∧
          tr.publishedAt = some t1 ∧
          tr ∈ listTracks (updateTrack (createTrack emptyDb ct id t0).2 id
            { published := some true } t1).2 { published := some true }) := by
  have hbridge : ∀ (db : Db) (id : String) (tr : Track), getTrack db id = some tr →
      ∃ h : db.tracks.findIdx (fun t => t.id == id) < db.tracks.length,
        db.tracks[db.tracks.findIdx (fun t => t.id == id)] = tr := by
    intro db id tr hget
    unfold getTrack at hget
    rw [find?_eq_dite] at hget
    split at hget
    case isTrue h =>
      injection hget with hget
      exact ⟨h, hget⟩
    case isFalse h => exact absurd hget (by simp)
  refine ⟨?_, ?_, ?_⟩
  · intro db id u now tr hget hcond
    obtain ⟨h, hel⟩ := hbridge db id tr hget
    unfold updateTrack
    dsimp only
    rw [dif_pos h]
    dsimp only
    rw [hel]
    have hfalse : (u.published.getD tr.published && !tr.published) = false := by
      rcases hpub : u.published.getD tr.published <;>
        rcases hwas : tr.published <;> simp_all
    simp [mergeTrack, hfalse]
  · intro db id u now tr hget hpub hwas
    obtain ⟨h, hel⟩ := hbridge db id tr hget
    unfold updateTrack
    dsimp only
    rw [dif_pos h]
    dsimp only
    rw [hel]
    have htrue : (u.published.getD tr.published && !tr.published) = true := by
      rw [hpub, hwas]
      rfl
    simp [mergeTrack, htrue]
  · intro ct id t0 t1 hp
    have htracks : (createTrack emptyDb ct id t0).2.tracks = [newTrackOf ct id t0] := rfl
    have hpub0 : ((newTrackOf ct id t0).published == true) = false := by
      simp [newTrackOf, hp]
    constructor
    · unfold listTracks
      dsimp only
      rw [htracks]
      simp [hpub0, newTrackOf, hp, List.mergeSort_nil]
    · have hupd := updateTrack_singleton (createTrack emptyDb ct id t0).2
        (newTrackOf ct id t0) id { published := some true } t1 htracks rfl
      refine ⟨mergeTrack (newTrackOf ct id t0) { published := some true } t1, ?_, ?_, ?_⟩
      · rw [hupd]
      · simp [mergeTrack, newTrackOf, hp]
      · rw [hupd]
        dsimp only
        have hmt : (rebuildSearchIndex { (createTrack emptyDb ct id t0).2 with
            tracks := [mergeTrack (newTrackOf ct id t0) { published := some true } t1] }).tracks
            = [mergeTrack (newTrackOf ct id t0) { published := some true } t1] := rfl
        unfold listTracks
        dsimp only
        rw [hmt]
        have hmpub : ((mergeTrack (newTrackOf ct id t0)
            { published := some true } t1).published == true) = true := by
          simp [mergeTrack]
        simp [hmpub, mergeTrack, List.mergeSort_singleton]

/-- C3 witness: re-checking the amended behaviour on the concrete
publish / unpublish / republish run and on the end-to-end scenario from the
empty store. -/
theorem c3_published_at_witness :
    (updateTrack publishedAt100 "t1" { published := some false } 200).1.map
      Track.publishedAt = some (some 100) ∧
    (updateTrack unpublishedAt200 "t1" { published := some true } 300).1.map
      Track.publishedAt = some (some 300) ∧
    listTracks (createTrack emptyDb unpubCreateTrack "t1" 100).2
      { published := some true } = [] :=
  ⟨by
      have h := c3_published_at.1 publishedAt100 "t1" { published := some false } 200
        (newTrackOf sampleCreateTrack "t1" 100) (by decide) (by decide)
      exact h.trans (by decide),
   by
      have hu : getTrack unpublishedAt200 "t1"
          = some (mergeTrack (newTrackOf sampleCreateTrack "t1" 100)
              { published := some false } 200) := by decide
      exact c3_published_at.2.1 unpublishedAt200 "t1" { published := some true } 300
        _ hu (by decide) (by decide),
   (c3_published_at.2.2 unpubCreateTrack "t1" 100 300 rfl).1⟩

/-! ### C1 — monthly listeners after three plays -/

/-- `getUserStats` falls through to a fresh computation exactly on a cache
miss. -/
theorem getUserStats_of_miss (db : Db) (u : String) (now : Nat)
    (h : db.userStats.find? (fun s => s.userId == u) = none) :
    getUserStats db u now = updateUserStats db u now := by
  unfold getUserStats
  rw [h]

/-- The `monthlyListeners` aggregate computed by `updateUserStats`: distinct
non-empty listener ids among the plays of the user's tracks within the
trailing 30 days. -/
theorem updateUserStats_monthly (db : Db) (u : String) (now : Nat) :
    (updateUserStats db u now).1.monthlyListeners
      = (((db.plays.filter fun p => ownsTrack db u p.trackId
            && decide (thirtyDaysAgo now ≤ p.createdAt)).filterMap Play.userId).filter
          fun s => !s.isEmpty).dedup.length := rfl

/-- C1 counterexample: `sampleCachedDb` holds `artist`'s track and the cached
stats entry a `createUser`/`createTrack` flow would have produced;
`sampleAfterPlays` records three plays of that track by the distinct
listeners u1, u2, u3 at time 1000 via `createPlay`; yet the stats query at
time 1500 (well within 30 days) still reports 0 monthly listeners, because
`createPlay` never refreshes the cached user stats and `getUserStats`
returns the cached entry verbatim. -/
theorem c1_stale_stats_counterexample :
    ownsTrack sampleCachedDb "artist" "t1" = true ∧
    thirtyDaysAgo 1500 ≤ 1000 ∧
    ("u1" : String) ≠ "u2" ∧ ("u1" : String) ≠ "u3" ∧ ("u2" : String) ≠ "u3" ∧
    (getUserStats sampleAfterPlays "artist" 1500).1.monthlyListeners = 0 ∧
    (0 : Nat) ≠ 3 :=
  ⟨by decide, by decide, by decide, by decide, by decide, by decide, by decide⟩

/-- C1 (amended): when no `UserStats` entry for the user is cached at query
time (so `getUserStats` recomputes — `createPlay` itself never refreshes the
cache), recording three plays of the user's tracks by three distinct
non-empty userIds with timestamps inside the trailing 30-day window, in a
state with no other qualifying recent plays, makes the stats report
`monthlyListeners = 3`. -/
theorem c1_monthly_listeners_fresh
    (db : Db) (artistId u1 u2 u3 pid1 pid2 pid3 : String)
    (pl1 pl2 pl3 : CreatePlay) (n1 n2 n3 nq : Nat)
    (hcache : db.userStats.find? (fun s => s.userId == artistId) = none)
    (hu1 : pl1.userId = some u1) (hu2 : pl2.userId = some u2) (hu3 : pl3.userId = some u3)
    (hd12 : u1 ≠ u2) (hd13 : u1 ≠ u3) (hd23 : u2 ≠ u3)
    (hne1 : u1 ≠ "") (hne2 : u2 ≠ "") (hne3 : u3 ≠ "")
    (ho1 : ownsTrack db artistId pl1.trackId = true)
    (ho2 : ownsTrack db artistId pl2.trackId = true)
    (ho3 : ownsTrack db artistId pl3.trackId = true)
    (hr1 : thirtyDaysAgo nq ≤ n1) (hr2 : thirtyDaysAgo nq ≤ n2)
    (hr3 : thirtyDaysAgo nq ≤ n3)
    (hold : ∀ p ∈ db.plays,
      (ownsTrack db artistId p.trackId
        && decide (thirtyDaysAgo nq ≤ p.createdAt)) = false) :
    (getUserStats (createPlay (createPlay (createPlay db pl1 pid1 n1).2
        pl2 pid2 n2).2 pl3 pid3 n3).2 artistId nq).1.monthlyListeners = 3 := by
  have hus : (createPlay (createPlay (createPlay db pl1 pid1 n1).2
      pl2 pid2 n2).2 pl3 pid3 n3).2.userStats = db.userStats := by
    rw [createPlay_userStats, createPlay_userStats, createPlay_userStats]
  have hplays : (createPlay (createPlay (createPlay db pl1 pid1 n1).2
      pl2 pid2 n2).2 pl3 pid3 n3).2.plays
      = db.plays ++ [newPlayOf pl1 pid1 n1, newPlayOf pl2 pid2 n2,
          newPlayOf pl3 pid3 n3] := by
    rw [createPlay_plays, createPlay_plays, createPlay_plays]
    simp
  have howns : ∀ tid, ownsTrack (createPlay (createPlay (createPlay db pl1 pid1 n1).2
      pl2 pid2 n2).2 pl3 pid3 n3).2 artistId tid = ownsTrack db artistId tid := by
    intro tid
    rw [createPlay_ownsTrack, createPlay_ownsTrack, createPlay_ownsTrack]
  rw [getUserStats_of_miss _ _ _ (by rw [hus]; exact hcache)]
  rw [updateUserStats_monthly]
  simp only [howns, hplays]
  rw [List.filter_append]
  have hnil : db.plays.filter (fun p => ownsTrack db artistId p.trackId
      && decide (thirtyDaysAgo nq ≤ p.createdAt)) = [] :=
    List.filter_eq_nil_iff.mpr (fun p hp => by rw [hold p hp]; simp)
  rw [hnil]
  have hkeep : [newPlayOf pl1 pid1 n1, newPlayOf pl2 pid2 n2,
      newPlayOf pl3 pid3 n3].filter (fun p => ownsTrack db artistId p.trackId
        && decide (thirtyDaysAgo nq ≤ p.createdAt))
      = [newPlayOf pl1 pid1 n1, newPlayOf pl2 pid2 n2, newPlayOf pl3 pid3 n3] := by
    simp [List.filter_cons, newPlayOf, ho1, ho2, ho3, hr1, hr2, hr3]
  rw [hkeep]
  have hmap : [newPlayOf pl1 pid1 n1, newPlayOf pl2 pid2 n2,
      newPlayOf pl3 pid3 n3].filterMap Play.userId = [u1, u2, u3] := by
    simp [List.filterMap_cons, newPlayOf, hu1, hu2, hu3]
  rw [List.nil_append, hmap]
  have hempty : ∀ s : String, s ≠ "" → s.isEmpty = false := by
    intro s hs
    rw [Bool.eq_false_iff]
    intro hx
    exact hs ((String.isEmpty_iff s).mp hx)
  have hflt : [u1, u2, u3].filter (fun s => !s.isEmpty) = [u1, u2, u3] := by
    simp [List.filter_cons, hempty u1 hne1, hempty u2 hne2, hempty u3 hne3]
  rw [hflt]
  rw [List.dedup_eq_self.mpr (by simp [List.nodup_cons, hd12, hd13, hd23])]
  rfl

/-- C1 witness: on the cache-free `sampleFreshDb`, three plays by u1, u2, u3
at time 1000 make the stats query at 1500 report 3 monthly listeners. -/
theorem c1_monthly_listeners_fresh_witness :
    (getUserStats (createPlay (createPlay (createPlay sampleFreshDb
        (samplePlay "u1") "p1" 1000).2 (samplePlay "u2") "p2" 1000).2
        (samplePlay "u3") "p3" 1000).2 "artist" 1500).1.monthlyListeners = 3 :=
  c1_monthly_listeners_fresh sampleFreshDb "artist" "u1" "u2" "u3" "p1" "p2" "p3"
    (samplePlay "u1") (samplePlay "u2") (samplePlay "u3") 1000 1000 1000 1500
    rfl rfl rfl rfl (by decide) (by decide) (by decide) (by decide) (by decide)
    (by decide) (by decide) (by decide) (by decide) (by decide) (by decide)
    (by decide) (by decide)

/-! ### C7 — camelCase/snake_case round trip -/

/-- Bounds extracted from the `[A-Z]` test. -/
theorem asciiUpper_bounds (c : Char) (h : isAsciiUpper c = true) :
    65 ≤ c.toNat ∧ c.toNat ≤ 90 := by
  simp [isAsciiUpper, Char.le_def] at h
  exact h

/-- `Char.ofNat` round-trips `toNat` on code points below the surrogate
range. -/
theorem toNat_ofNat_valid (n : Nat) (h : n < 55296) : (Char.ofNat n).toNat = n := by
  have hv : n.isValidChar := Or.inl h
  simp [Char.ofNat, hv, Char.ofNatAux, Char.toNat, UInt32.toNat]

/-- Lowercasing an `[A-Z]` character adds 32 to its code point. -/
theorem asciiToLower_toNat (c : Char) (h : isAsciiUpper c = true) :
    (asciiToLower c).toNat = c.toNat + 32 := by
  obtain ⟨h1, h2⟩ := asciiUpper_bounds c h
  unfold asciiToLower
  exact toNat_ofNat_valid _ (by omega)

/-- Character order agrees with code-point order. -/
theorem char_le_iff_toNat (a b : Char) : a ≤ b ↔ a.toNat ≤ b.toNat := by
  rw [Char.le_def, UInt32.le_def, BitVec.le_def]
  exact Iff.rfl

/-- Lowercasing an `[A-Z]` character yields an `[a-z]` character. -/
theorem asciiToLower_isLower (c : Char) (h : isAsciiUpper c = true) :
    isAsciiLower (asciiToLower c) = true := by
  obtain ⟨h1, h2⟩ := asciiUpper_bounds c h
  have ht := asciiToLower_toNat c h
  unfold isAsciiLower
  simp only [Bool.and_eq_true, decide_eq_true_eq, char_le_iff_toNat]
  have ha : ('a').toNat = 97 := rfl
  have hz : ('z').toNat = 122 := rfl
  rw [ha, hz, ht]
  omega

/-- Uppercasing undoes lowercasing on `[A-Z]` characters. -/
theorem asciiToUpper_asciiToLower (c : Char) (h : isAsciiUpper c = true) :
    asciiToUpper (asciiToLower c) = c := by
  obtain ⟨h1, h2⟩ := asciiUpper_bounds c h
  have ht := asciiToLower_toNat c h
  have htn : (asciiToUpper (asciiToLower c)).toNat = c.toNat := by
    unfold asciiToUpper
    rw [ht, toNat_ofNat_valid _ (by omega)]
    omega
  have := congrArg Char.ofNat htn
  rwa [Char.ofNat_toNat, Char.ofNat_toNat] at this

/-- The lowercase image of an `[A-Z]` character is not an underscore. -/
theorem asciiToLower_ne_underscore (c : Char) (h : isAsciiUpper c = true) :
    asciiToLower c ≠ '_' := by
  intro he
  obtain ⟨h1, h2⟩ := asciiUpper_bounds c h
  have ht := asciiToLower_toNat c h
  rw [he] at ht
  have h95 : ('_').toNat = 95 := rfl
  omega

/-- Letters and digits are never underscores. -/
theorem isLetterOrDigit_ne_underscore (c : Char) (h : isLetterOrDigit c = true) :
    c ≠ '_' := by
  intro he
  subst he
  exact absurd h (by decide)

/-- `snakeChars` unfolded one character at a time. -/
theorem snakeChars_cons (c : Char) (l : List Char) :
    snakeChars (c :: l)
      = (if isAsciiUpper c then ['_', asciiToLower c] else [c]) ++ snakeChars l := by
  simp [snakeChars]

/-- The camelCase scan passes over any non-underscore head unchanged. -/
theorem camelChars_cons_ne (c : Char) (l : List Char) (h : c ≠ '_') :
    camelChars (c :: l) = c :: camelChars l := by
  cases l with
  | nil => rfl
  | cons d ds =>
    rw [camelChars]
    rw [if_neg (by simp [h])]

/-- Key-level round trip: snake-casing then camel-casing an underscore-free
character list is the identity. -/
theorem camelChars_snakeChars (l : List Char) (h : ∀ c ∈ l, c ≠ '_') :
    camelChars (snakeChars l) = l := by
  induction l with
  | nil => rfl
  | cons c rest ih =>
    have hrest : ∀ x ∈ rest, x ≠ '_' := fun x hx => h x (List.mem_cons_of_mem c hx)
    have hc : c ≠ '_' := h c (List.mem_cons_self c rest)
    rw [snakeChars_cons]
    by_cases hcu : isAsciiUpper c = true
    · rw [if_pos hcu]
      show camelChars ('_' :: asciiToLower c :: snakeChars rest) = c :: rest
      rw [camelChars]
      rw [if_pos ⟨rfl, asciiToLower_isLower c hcu⟩]
      rw [asciiToUpper_asciiToLower c hcu, ih hrest]
    · rw [if_neg hcu]
      show camelChars (c :: snakeChars rest) = c :: rest
      rw [camelChars_cons_ne c _ hc, ih hrest]

/-- Round trip at the key level for keys of letters and digits. -/
theorem toCamelCase_toSnakeCase (s : String) (h : goodKey s = true) :
    toCamelCase (toSnakeCase s) = s := by
  unfold toCamelCase toSnakeCase
  rw [show (String.mk (snakeChars s.data)).data = snakeChars s.data from rfl]
  rw [camelChars_snakeChars s.data (fun c hc =>
    isLetterOrDigit_ne_underscore c (by
      have := List.all_eq_true.mp h c hc
      exact this))]

/-- `toSnakeCase` is injective on keys of letters and digits. -/
theorem toSnakeCase_inj (k1 k2 : String) (h1 : goodKey k1 = true)
    (h2 : goodKey k2 = true) (he : toSnakeCase k1 = toSnakeCase k2) : k1 = k2 := by
  have := congrArg toCamelCase he
  rwa [toCamelCase_toSnakeCase k1 h1, toCamelCase_toSnakeCase k2 h2] at this

/-- A property assignment with an unused key appends. -/
theorem setKey_of_not_mem (acc : List (String × JsValue)) (k : String) (v : JsValue)
    (h : ∀ kv ∈ acc, kv.1 ≠ k) : setKey acc k v = acc ++ [(k, v)] := by
  induction acc with
  | nil => rfl
  | cons kv rest ih =>
    obtain ⟨k', v'⟩ := kv
    rw [setKey]
    rw [if_neg (h (k', v') (List.mem_cons_self _ _))]
    rw [ih (fun kv hkv => h kv (List.mem_cons_of_mem _ hkv))]
    rfl

/-- Replaying distinct-keyed assignments appends them all in order. -/
theorem foldl_setKey_eq_append (l : List (String × JsValue)) :
    ∀ acc : List (String × JsValue), (l.map Prod.fst).Nodup →
      (∀ kv ∈ l, ∀ kv' ∈ acc, kv'.1 ≠ kv.1) →
      l.foldl (fun a kv => setKey a kv.1 kv.2) acc = acc ++ l := by
  induction l with
  | nil =>
    intro acc hnd hd
    simp
  | cons kv rest ih =>
    intro acc hnd hd
    rw [List.foldl_cons]
    rw [setKey_of_not_mem acc kv.1 kv.2
      (fun kv' hkv' => hd kv (List.mem_cons_self _ _) kv' hkv')]
    rw [List.map_cons, List.nodup_cons] at hnd
    rw [ih (acc ++ [(kv.1, kv.2)]) hnd.2 ?hd2]
    · simp
    case hd2 =>
      intro kv' hkv' kv'' hkv''
      rcases List.mem_append.mp hkv'' with hacc | hone
      · exact hd kv' (List.mem_cons_of_mem _ hkv') kv'' hacc
      · simp only [List.mem_singleton] at hone
        subst hone
        intro hkk
        exact hnd.1 (hkk ▸ List.mem_map_of_mem Prod.fst hkv')

/-- An object rebuilt by assignments over distinct keys is unchanged. -/
theorem buildObj_eq_self (l : List (String × JsValue))
    (h : (l.map Prod.fst).Nodup) : buildObj l = l := by
  have := foldl_setKey_eq_append l [] h (by simp)
  simpa [buildObj] using this

/-- Keys of a snake-cased field list. -/
theorem toSnakeCaseFields_keys (l : List (String × JsValue)) :
    (toSnakeCaseFields l).map Prod.fst = (l.map Prod.fst).map toSnakeCase := by
  induction l with
  | nil => rfl
  | cons kv rest ih =>
    obtain ⟨k, v⟩ := kv
    simp [toSnakeCaseFields, ih]

/-- Every key of a good field list is good. -/
theorem goodFields_mem_key (l : List (String × JsValue)) (h : goodFields l = true) :
    ∀ kv ∈ l, goodKey kv.1 = true := by
  induction l with
  | nil => intro kv hkv; cases hkv
  | cons kv0 rest ih =>
    obtain ⟨k, v⟩ := kv0
    rw [goodFields, Bool.and_eq_true, Bool.and_eq_true] at h
    intro kv hkv
    rcases List.mem_cons.mp hkv with heq | hmem
    · subst heq
      exact h.1.1
    · exact ih h.2 kv hmem

mutual

/-- Round trip on values. -/
theorem roundtripVal (v : JsValue) (h : goodVal v = true) :
    toCamelCaseObject (toSnakeCaseObject v) = v := by
  cases v with
  | null => rfl
  | bool b => rfl
  | num q => rfl
  | str s => rfl
  | arr items =>
    rw [toSnakeCaseObject, toCamelCaseObject]
    rw [roundtripList items (by rw [goodVal] at h; exact h)]
  | obj fields =>
    rw [goodVal, Bool.and_eq_true, decide_eq_true_eq] at h
    obtain ⟨hnodup, hgf⟩ := h
    have hsnodup : ((toSnakeCaseFields fields).map Prod.fst).Nodup := by
      rw [toSnakeCaseFields_keys]
      refine List.Nodup.map_on ?_ hnodup
      intro x hx y hy hxy
      rcases List.mem_map.mp hx with ⟨kvx, hkvx, hkx⟩
      rcases List.mem_map.mp hy with ⟨kvy, hkvy, hky⟩
      exact toSnakeCase_inj x y
        (hkx ▸ goodFields_mem_key fields hgf kvx hkvx)
        (hky ▸ goodFields_mem_key fields hgf kvy hkvy) hxy
    rw [toSnakeCaseObject]
    rw [buildObj_eq_self _ hsnodup]
    rw [toCamelCaseObject]
    rw [roundtripFields fields hgf]
    rw [buildObj_eq_self _ hnodup]

/-- Round trip on array items. -/
theorem roundtripList (l : List JsValue) (h : goodArr l = true) :
    toCamelCaseList (toSnakeCaseList l) = l := by
  cases l with
  | nil => rfl
  | cons v rest =>
    rw [goodArr, Bool.and_eq_true] at h
    rw [toSnakeCaseList, toCamelCaseList]
    rw [roundtripVal v h.1, roundtripList rest h.2]

/-- Round trip on object entries. -/
theorem roundtripFields (l : List (String × JsValue)) (h : goodFields l = true) :
    toCamelCaseFields (toSnakeCaseFields l) = l := by
  cases l with
  | nil => rfl
  | cons kv rest =>
    obtain ⟨k, v⟩ := kv
    rw [goodFields, Bool.and_eq_true, Bool.and_eq_true] at h
    rw [toSnakeCaseFields, toCamelCaseFields]
    rw [toCamelCase_toSnakeCase k h.1.1, roundtripVal v h.1.2,
      roundtripFields rest h.2]

end

/-- C7: for every nested value whose object keys are made of letters and
digits only (and are distinct, as JavaScript object keys are),
`toCamelCaseObject (toSnakeCaseObject x)` is deep-equal to `x`. -/
theorem c7_case_roundtrip (v : JsValue) (h : goodVal v = true) :
    toCamelCaseObject (toSnakeCaseObject v) = v :=
  roundtripVal v h

/-- C7 witness: the nested sample object round-trips. -/
theorem c7_case_roundtrip_witness :
    goodVal sampleJs = true ∧
    toCamelCaseObject (toSnakeCaseObject sampleJs) = sampleJs :=
  ⟨by decide, c7_case_roundtrip sampleJs (by decide)⟩

end MuseWave
